import Mathlib

/-!
Shallow embedding of src/main.py of the rollux-sanity repository: a node
health checker for a blockchain RPC endpoint. The embedding models each
Python function as a Lean function over explicit oracles describing what
the network returns; a Python expression that can raise an exception is
modelled with the PyResult type. The stateful parts (the polling loop of
check_block_progression, the RPC calls issued by an aggregator run) are
modelled by explicit recursion over a discrete clock and by an explicit
trace of the RPC calls made, in program order.
-/

namespace RolluxSanity

/-- Result of running a Python computation: it either raises an exception
(any exception class; the embedding does not distinguish them) or returns
a value. -/
inductive PyResult (α : Type) where
  | raises
  | ok (val : α)
deriving DecidableEq

/-- Decoded JSON body of an eth_blockNumber response, as the code reads it:
only the result field matters, a hex string when present. A missing field
and a JSON null both decode to Python None, hence to none here. -/
structure BNBody where
  result : Option String
deriving DecidableEq

/-- Decoded result field of an eth_getBlockByNumber response. JSON null
decodes to Python None (nullResult); otherwise the value is an object whose
hash field may be missing. The empty Python dict that the code substitutes
for a missing result is modelled as obj none, because the code reads only
the hash field of the object. -/
inductive BlockResult where
  | nullResult
  | obj (hash : Option String)
deriving DecidableEq

/-- Decoded JSON body of an eth_getBlockByNumber response: only the result
field matters to the code. -/
structure BlockBody where
  result : Option BlockResult
deriving DecidableEq

/-- Outcome of requests.post followed by decoding, as observed by the code:
netError when the POST itself raises (connection refused, timeout, DNS
failure); otherwise an HTTP status code and a body, where body none means
that response.json() raises (malformed JSON body). -/
inductive HttpResp (β : Type) where
  | netError
  | http (status : Nat) (body : Option β)
deriving DecidableEq

/-- Value of one hexadecimal digit, as accepted by Python int(_, 16). -/
def hexDigitVal? (c : Char) : Option Nat :=
  if '0' ≤ c ∧ c ≤ '9' then some (c.toNat - Char.toNat '0')
  else if 'a' ≤ c ∧ c ≤ 'f' then some (c.toNat - Char.toNat 'a' + 10)
  else if 'A' ≤ c ∧ c ≤ 'F' then some (c.toNat - Char.toNat 'A' + 10)
  else none

/-- Accumulate hexadecimal digits left to right; none as soon as a character
is not a hexadecimal digit. -/
def hexAccum : Nat → List Char → Option Nat
  | acc, [] => some acc
  | acc, c :: cs =>
    match hexDigitVal? c with
    | none => none
    | some d => hexAccum (16 * acc + d) cs

/-- Model of the Python builtin int(s, 16) on the strings this protocol
produces: an optional leading 0x or 0X marker followed by one or more
hexadecimal digits; none models a ValueError. Sign, whitespace and
underscore forms accepted by Python are not produced by the protocol and
are not modelled. -/
def int16? (s : String) : Option Nat :=
  let ds : List Char :=
    match s.data with
    | '0' :: 'x' :: rest => rest
    | '0' :: 'X' :: rest => rest
    | rest => rest
  match ds with
  | [] => none
  | _ => hexAccum 0 ds

/-- src/main.py, fetch_latest_block_number: POST eth_blockNumber to the
url; on status 200 read the result field of the JSON body and return
int(result, 16) when the field is present, None when it is not; on any
other status return None. The POST raising, response.json() raising and
int(result, 16) raising all propagate: the function has no exception
handler. -/
def fetch_latest_block_number (r : HttpResp BNBody) : PyResult (Option Nat) :=
  match r with
  | .netError => .raises
  | .http status body =>
    if status = 200 then
      match body with
      | none => .raises
      | some b =>
        match b.result with
        | none => .ok none
        | some s =>
          match int16? s with
          | none => .raises
          | some n => .ok (some n)
    else .ok none

/-- src/main.py, fetch_block_details: the payload is built first, so a None
block number makes hex(block_number) raise a TypeError before any request
is made; otherwise POST eth_getBlockByNumber for that number, and on status
200 return the result field of the JSON body with the empty dict as the
default, on any other status return the empty dict. The POST raising and
response.json() raising propagate: no exception handler. The oracle respOf
gives the response of the endpoint for each requested block number. -/
def fetch_block_details (respOf : Nat → HttpResp BlockBody)
    (blockNumber? : Option Nat) : PyResult BlockResult :=
  match blockNumber? with
  | none => .raises
  | some n =>
    match respOf n with
    | .netError => .raises
    | .http status body =>
      if status = 200 then
        match body with
        | none => .raises
        | some b => .ok (b.result.getD (BlockResult.obj none))
      else .ok (BlockResult.obj none)

/-- What happens inside the try block of is_port_open: get_hostname may
raise, sock.connect_ex may raise (for example a DNS resolution failure
inside getaddrinfo), or connect_ex returns an error code, 0 meaning the
connect succeeded. -/
inductive ProbeEvent where
  | hostnameRaises
  | connectRaises
  | connectReturns (code : Int)
deriving DecidableEq

/-- Observable outcome of one run of is_port_open: the Boolean it returns
and whether the socket it opened was closed before it returned. -/
structure ProbeRun where
  result : Bool
  socketClosed : Bool
deriving DecidableEq

/-- src/main.py, is_port_open: opens a socket, then inside a try block
resolves the hostname, calls connect_ex, closes the socket and returns
whether the code is 0. The except branch catches every exception and
returns False, but it does not close the socket: there is no finally, so on
the two raising paths the socket stays open. -/
def is_port_open (e : ProbeEvent) : ProbeRun :=
  match e with
  | .hostnameRaises => { result := false, socketClosed := false }
  | .connectRaises => { result := false, socketClosed := false }
  | .connectReturns code => { result := code == 0, socketClosed := true }

/-- Python d.get applied to the hash key: raises an AttributeError when the
receiver is None (a JSON null result), otherwise returns the hash field or
None. -/
def dictGetHash : BlockResult → PyResult (Option String)
  | .nullResult => .raises
  | .obj h => .ok h

/-- The consistency comparison shared by main and perform_checks: read the
hash field of each block-details value and compare with Python equality
(None == None is True). Reference side is read first, as in the source. -/
def block_hash_check (ref tgt : BlockResult) : PyResult Bool :=
  match dictGetHash ref with
  | .raises => .raises
  | .ok h1 =>
    match dictGetHash tgt with
    | .raises => .raises
    | .ok h2 => .ok (h1 == h2)

/-- One JSON-RPC call issued over HTTP POST, as recorded in program order:
either eth_blockNumber to a url, or eth_getBlockByNumber to a url for a
given block number (the number is sent hex encoded; hex is injective so the
trace records the Nat). A call is recorded when the POST is attempted, even
if the transport then fails. -/
inductive RpcCall where
  | blockNumber (url : String)
  | getBlockByNumber (url : String) (blockNumber : Nat)
deriving DecidableEq

/-- The RPC calls made by one fetch_block_details invocation: none when the
block number is None (hex raises before the POST), one otherwise. -/
def detailsCallTrace (url : String) (n? : Option Nat) : List RpcCall :=
  match n? with
  | none => []
  | some n => [RpcCall.getBlockByNumber url n]

/-- Network oracle for one aggregator invocation: the probe outcome per
port, the reference response to eth_blockNumber, the per-block-number
responses of the two endpoints to eth_getBlockByNumber, and the target
responses to eth_blockNumber for the progression baseline and for each
subsequent poll. -/
structure World where
  portEvent : Nat → ProbeEvent
  refHeadResp : HttpResp BNBody
  refDetailsResp : Nat → HttpResp BlockBody
  targetDetailsResp : Nat → HttpResp BlockBody
  targetBaselineResp : HttpResp BNBody
  targetPollResp : Nat → HttpResp BNBody

/-- The while loop of check_block_progression, modelled on a discrete
clock: iteration k starts at elapsed time 5 * k seconds, because every
earlier iteration ended in the fixed five second sleep (the model counts
only the sleeps; the calls themselves are instantaneous). The loop runs
while the elapsed time is below the timeout; the body polls
eth_blockNumber, returns True on a result strictly above the baseline b,
and otherwise sleeps and retries. A poll that raises propagates. The
second component is the trace of the polls made. The recursion is driven
structurally by a fuel argument so that the definition computes; the
caller passes fuel = timeout, and since each iteration consumes one unit
of fuel while advancing the clock by five seconds, fuel can run out only
when the loop condition 5 * k < timeout is already false, where the fuel
branch returns the same value as the loop exit (the lemma
pollLoop_fuel_independent makes this precise). -/
def pollLoop (url : String) (b : Nat) (pollResp : Nat → HttpResp BNBody)
    (timeout : Nat) : Nat → Nat → PyResult Bool × List RpcCall
  | _, 0 => (.ok false, [])
  | k, fuel + 1 =>
    if 5 * k < timeout then
      match fetch_latest_block_number (pollResp k) with
      | .raises => (.raises, [RpcCall.blockNumber url])
      | .ok (some n) =>
        if b < n then (.ok true, [RpcCall.blockNumber url])
        else
          let r := pollLoop url b pollResp timeout (k + 1) fuel
          (r.1, RpcCall.blockNumber url :: r.2)
      | .ok none =>
        let r := pollLoop url b pollResp timeout (k + 1) fuel
        (r.1, RpcCall.blockNumber url :: r.2)
    else (.ok false, [])

/-- src/main.py, check_block_progression: fetch a baseline head from the
endpoint; if it is None return False at once, otherwise run the polling
loop from elapsed time zero. A baseline fetch that raises propagates. The
second component is the trace of the eth_blockNumber calls made (the
baseline call plus one call per poll). -/
def check_block_progression (url : String) (baselineResp : HttpResp BNBody)
    (pollResp : Nat → HttpResp BNBody) (timeout : Nat) :
    PyResult Bool × List RpcCall :=
  match fetch_latest_block_number baselineResp with
  | .raises => (.raises, [RpcCall.blockNumber url])
  | .ok none => (.ok false, [RpcCall.blockNumber url])
  | .ok (some b) =>
    let r := pollLoop url b pollResp timeout 0 timeout
    (r.1, RpcCall.blockNumber url :: r.2)

/-- The fixed port candidate set of CLI mode (main). -/
def cli_ports : List Nat := [30303, 9003, 30304]

/-- The fixed port candidate set of service mode (perform_checks). -/
def api_ports : List Nat := [30303, 9003, 30304, 8369, 18369]

/-- The result dict built by perform_checks. -/
structure CheckResults where
  port_status : List (Nat × Bool)
  block_hash_check : Bool
  block_progression : Bool
deriving DecidableEq

/-- src/main.py, perform_checks: probe the five service mode ports, fetch
the reference head (latest_block_number, possibly None), fetch block
details for that number from the reference and then from the target,
compare the hash fields, and run check_block_progression on the target.
Any exception raised on the way propagates; in particular a None reference
head reaches hex() inside the first fetch_block_details and raises a
TypeError. The second component is the trace of the RPC calls made, in
program order. -/
def perform_checks (rpc_url reference_url : String) (timeout : Nat)
    (w : World) : PyResult CheckResults × List RpcCall :=
  let port_results := api_ports.map (fun p => (p, (is_port_open (w.portEvent p)).result))
  let t0 : List RpcCall := [RpcCall.blockNumber reference_url]
  match fetch_latest_block_number w.refHeadResp with
  | .raises => (.raises, t0)
  | .ok latest =>
    let t1 := t0 ++ detailsCallTrace reference_url latest
    match fetch_block_details w.refDetailsResp latest with
    | .raises => (.raises, t1)
    | .ok refDetails =>
      let t2 := t1 ++ detailsCallTrace rpc_url latest
      match fetch_block_details w.targetDetailsResp latest with
      | .raises => (.raises, t2)
      | .ok tgtDetails =>
        match block_hash_check refDetails tgtDetails with
        | .raises => (.raises, t2)
        | .ok hashOk =>
          let pr := check_block_progression rpc_url w.targetBaselineResp
            w.targetPollResp timeout
          match pr.1 with
          | .raises => (.raises, t2 ++ pr.2)
          | .ok progOk =>
            (.ok { port_status := port_results,
                   block_hash_check := hashOk,
                   block_progression := progOk }, t2 ++ pr.2)

/-- What main reports at the end of a completed run: the per-port status,
and the three pass flags it logs. -/
structure MainReport where
  port_status : List (Nat × Bool)
  hash_check_pass : Bool
  block_progression_pass : Bool
  port_check_pass : Bool
deriving DecidableEq

/-- src/main.py, main (CLI mode): probe the three CLI ports, fetch the
reference head; when that is None, log an error and return early (modelled
as ok none: no crash, but no hash or progression verdict either).
Otherwise fetch both block details for that head, compare hashes, run the
progression check and report all three verdicts. Exceptions raised by the
fetches propagate; the second component is the RPC call trace. -/
def main (rpc_url reference_url : String) (timeout : Nat) (w : World) :
    PyResult (Option MainReport) × List RpcCall :=
  let port_status := cli_ports.map (fun p => (p, (is_port_open (w.portEvent p)).result))
  let all_ports_open := port_status.all (fun pr => pr.2)
  let t0 : List RpcCall := [RpcCall.blockNumber reference_url]
  match fetch_latest_block_number w.refHeadResp with
  | .raises => (.raises, t0)
  | .ok none => (.ok none, t0)
  | .ok (some latest) =>
    let t1 := t0 ++ [RpcCall.getBlockByNumber reference_url latest]
    match fetch_block_details w.refDetailsResp (some latest) with
    | .raises => (.raises, t1)
    | .ok refDetails =>
      let t2 := t1 ++ [RpcCall.getBlockByNumber rpc_url latest]
      match fetch_block_details w.targetDetailsResp (some latest) with
      | .raises => (.raises, t2)
      | .ok tgtDetails =>
        match block_hash_check refDetails tgtDetails with
        | .raises => (.raises, t2)
        | .ok hash_check_pass =>
          let pr := check_block_progression rpc_url w.targetBaselineResp
            w.targetPollResp timeout
          match pr.1 with
          | .raises => (.raises, t2 ++ pr.2)
          | .ok block_progression_pass =>
            (.ok (some { port_status := port_status,
                         hash_check_pass := hash_check_pass,
                         block_progression_pass := block_progression_pass,
                         port_check_pass := all_ports_open }), t2 ++ pr.2)

/-- Default reference endpoint of main and perform_checks. -/
def default_reference_url : String := "https://rpc.rollux.com"

/-- Default progression timeout of main and perform_checks, in seconds. -/
def default_timeout : Nat := 30

/-- Response of the /api/check route: HTTP 400 with the fixed error body,
or HTTP 200 with the results of perform_checks. -/
inductive ApiCheckResponse where
  | badRequest
  | ok (results : CheckResults)
deriving DecidableEq

/-- src/main.py, api_check: read the rpc_url query parameter (None when
missing, the raw string otherwise). A missing parameter and an empty
string are both falsy, so both take the 400 branch without any network
activity; a non-empty url runs perform_checks with the default reference
url and timeout and returns its results. An exception raised by
perform_checks propagates (Flask would turn it into a 500). -/
def api_check (rpc_url? : Option String) (w : World) :
    PyResult ApiCheckResponse × List RpcCall :=
  match rpc_url? with
  | none => (.ok .badRequest, [])
  | some s =>
    if s = "" then (.ok .badRequest, [])
    else
      let pr := perform_checks s default_reference_url default_timeout w
      match pr.1 with
      | .raises => (.raises, pr.2)
      | .ok results => (.ok (.ok results), pr.2)

/-- Poll k reports a head strictly above the baseline b. -/
def successAt (b : Nat) (pollResp : Nat → HttpResp BNBody) (k : Nat) : Prop :=
  ∃ n, fetch_latest_block_number (pollResp k) = PyResult.ok (some n) ∧ b < n

/-- Concrete target url used in closed instances below. -/
def tgt_url : String := "http://target.example:8545"

/-- Concrete reference url used in closed instances below. -/
def ref_url : String := "http://reference.example:8545"

/-- A healthy eth_blockNumber response reporting head 1000 (hex 0x3e8). -/
def resp1000 : HttpResp BNBody := HttpResp.http 200 (some { result := some "0x3e8" })

/-- A healthy eth_blockNumber response reporting head 1001 (hex 0x3e9). -/
def resp1001 : HttpResp BNBody := HttpResp.http 200 (some { result := some "0x3e9" })

/-- A world in which the reference endpoint answers eth_blockNumber with an
HTTP 500, so the reference head lookup yields None, and everything else is
unreachable. -/
def w_noRefHead : World where
  portEvent := fun _ => ProbeEvent.connectRaises
  refHeadResp := HttpResp.http 500 none
  refDetailsResp := fun _ => HttpResp.netError
  targetDetailsResp := fun _ => HttpResp.netError
  targetBaselineResp := HttpResp.netError
  targetPollResp := fun _ => HttpResp.netError

/-- A world in which both block-details lookups fail with non-200 statuses,
so both canonical identifiers are Absent, while the reference head lookup
succeeds (head 42) and all ports are open. -/
def w_bothAbsent : World where
  portEvent := fun _ => ProbeEvent.connectReturns 0
  refHeadResp := HttpResp.http 200 (some { result := some "0x2a" })
  refDetailsResp := fun _ => HttpResp.http 500 none
  targetDetailsResp := fun _ => HttpResp.http 404 none
  targetBaselineResp := HttpResp.http 200 (some { result := some "0x1" })
  targetPollResp := fun _ => HttpResp.http 200 (some { result := none })

/-- A fully healthy world: reference head 1000, both endpoints return the
same block hash for every requested number, and the target head moves from
1000 to 1001 at the first poll. -/
def w_healthy : World where
  portEvent := fun _ => ProbeEvent.connectReturns 0
  refHeadResp := resp1000
  refDetailsResp := fun _ =>
    HttpResp.http 200 (some { result := some (BlockResult.obj (some "0xabc")) })
  targetDetailsResp := fun _ =>
    HttpResp.http 200 (some { result := some (BlockResult.obj (some "0xabc")) })
  targetBaselineResp := resp1000
  targetPollResp := fun _ => resp1001

/-- C1 counterexample: a connection-level transport failure (requests.post
raising) propagates out of both RPC client functions as an exception; it
does not collapse to None or to the empty object. -/
theorem C1_counterexample :
    fetch_latest_block_number HttpResp.netError = PyResult.raises
    ∧ fetch_latest_block_number HttpResp.netError ≠ PyResult.ok none
    ∧ fetch_block_details (fun _ => HttpResp.netError) (some 5) = PyResult.raises
    ∧ fetch_block_details (fun _ => HttpResp.netError) (some 5)
        ≠ PyResult.ok (BlockResult.obj none) := by
  refine ⟨rfl, ?_, rfl, ?_⟩ <;> decide

/-- C1 amended: in the RPC client, a non-200 HTTP status collapses to the
Absent result (None for the head fetch, the empty object for block
details), and a 200 body without a result field collapses to None for the
head fetch; but a connection-level failure (connection refused, timeout)
or a malformed JSON body of a 200 response propagates as an exception. -/
theorem C1_error_collapse :
    (∀ status body, status ≠ 200 →
        fetch_latest_block_number (HttpResp.http status body) = PyResult.ok none)
    ∧ (∀ b : BNBody, b.result = none →
        fetch_latest_block_number (HttpResp.http 200 (some b)) = PyResult.ok none)
    ∧ fetch_latest_block_number HttpResp.netError = PyResult.raises
    ∧ fetch_latest_block_number (HttpResp.http 200 none) = PyResult.raises
    ∧ (∀ (respOf : Nat → HttpResp BlockBody) n status body,
        respOf n = HttpResp.http status body → status ≠ 200 →
        fetch_block_details respOf (some n) = PyResult.ok (BlockResult.obj none))
    ∧ (∀ (respOf : Nat → HttpResp BlockBody) n, respOf n = HttpResp.netError →
        fetch_block_details respOf (some n) = PyResult.raises)
    ∧ (∀ (respOf : Nat → HttpResp BlockBody) n,
        respOf n = HttpResp.http 200 none →
        fetch_block_details respOf (some n) = PyResult.raises) := by
  refine ⟨?_, ?_, rfl, rfl, ?_, ?_, ?_⟩
  · intro status body h
    simp [fetch_latest_block_number, h]
  · intro b hb
    simp [fetch_latest_block_number, hb]
  · intro respOf n status body h hs
    simp [fetch_block_details, h, hs]
  · intro respOf n h
    simp [fetch_block_details, h]
  · intro respOf n h
    simp [fetch_block_details, h]

/-- C1 witness: the amended statement instantiated at an HTTP 500 head
response and an HTTP 404 details response. -/
theorem C1_error_collapse_witness :
    fetch_latest_block_number (HttpResp.http 500 none) = PyResult.ok none
    ∧ fetch_block_details (fun _ => HttpResp.http 404 none) (some 3)
        = PyResult.ok (BlockResult.obj none) :=
  ⟨C1_error_collapse.1 500 none (by decide),
   C1_error_collapse.2.2.2.2.1 (fun _ => HttpResp.http 404 none) 3 404 none rfl
     (by decide)⟩

/-- C2: when the reference head lookup yields None, the service-mode
aggregator perform_checks raises (the None reaches hex() inside the first
fetch_block_details, a TypeError), and the CLI aggregator main returns
early with no report: neither reports failure for the hash and progression
checks as the claim states. -/
theorem C2_reference_head_absent_crashes :
    (perform_checks tgt_url ref_url 30 w_noRefHead).1 = PyResult.raises
    ∧ (main tgt_url ref_url 30 w_noRefHead).1 = PyResult.ok none := by
  exact ⟨rfl, rfl⟩

/-- C3 counterexample: when both canonical identifiers are Absent, the
consistency comparison evaluates None == None and passes; it does not
return false as the claim states. -/
theorem C3_counterexample :
    block_hash_check (BlockResult.obj none) (BlockResult.obj none) = PyResult.ok true
    ∧ block_hash_check (BlockResult.obj none) (BlockResult.obj none)
        ≠ PyResult.ok false := by
  exact ⟨rfl, by decide⟩

/-- C3 amended: on two decoded block objects the consistency comparison
returns the Python equality of the two optional hash fields, so it is true
exactly when the two identifiers are equal — including when both are
Absent — and false on any mismatch or single-sided Absent. -/
theorem C3_consistency_iff_equal (h1 h2 : Option String) :
    block_hash_check (BlockResult.obj h1) (BlockResult.obj h2) = PyResult.ok (h1 == h2)
    ∧ (block_hash_check (BlockResult.obj h1) (BlockResult.obj h2) = PyResult.ok true
        ↔ h1 = h2) := by
  refine ⟨rfl, ?_⟩
  have hb : block_hash_check (BlockResult.obj h1) (BlockResult.obj h2)
      = PyResult.ok (h1 == h2) := rfl
  rw [hb]
  constructor
  · intro h
    injection h with h
    exact eq_of_beq h
  · intro h
    subst h
    simp

/-- C4: an end-to-end service-mode run in which both block-details lookups
fail (non-200 statuses), so both identifiers are Absent: the hash check
passes, as the claim states. -/
theorem C4_both_absent_passes :
    (perform_checks tgt_url ref_url 0 w_bothAbsent).1
      = PyResult.ok
          { port_status :=
              [(30303, true), (9003, true), (30304, true), (8369, true), (18369, true)]
          , block_hash_check := true
          , block_progression := false } := by
  rfl

/-- C6 counterexample: when the probe raises (for example a DNS failure in
connect_ex), the except branch returns False without closing the socket,
so the socket is not closed on that exit path. -/
theorem C6_counterexample :
    (is_port_open ProbeEvent.connectRaises).socketClosed = false := by
  rfl

/-- C6 amended: the socket opened by is_port_open is closed on both normal
exit paths (connect_ex returning 0 or a failure code), but it is not
closed on the paths where an exception is raised inside the try block. -/
theorem C6_socket_closed_iff (e : ProbeEvent) :
    (is_port_open e).socketClosed = true ↔ ∃ c, e = ProbeEvent.connectReturns c := by
  cases e <;> simp [is_port_open]

/-- C8: is_port_open returns true exactly when connect_ex returns the
success code 0; every exception raised inside the probe is caught and
collapses to false (the model is a total function into Bool, so nothing
propagates to the caller). -/
theorem C8_port_probe_result (e : ProbeEvent) :
    (is_port_open e).result = true ↔ e = ProbeEvent.connectReturns 0 := by
  cases e <;> simp [is_port_open]

/-- The fuel driving pollLoop is semantically inert: any two fuels large
enough that they cannot run out inside the time window give the same
result, so passing fuel = timeout (as check_block_progression does)
computes exactly the while loop of the source. -/
theorem pollLoop_fuel_independent (url : String) (b : Nat)
    (pollResp : Nat → HttpResp BNBody) (timeout : Nat) :
    ∀ fuel1 fuel2 k, timeout ≤ 5 * k + 5 * fuel1 → timeout ≤ 5 * k + 5 * fuel2 →
      pollLoop url b pollResp timeout k fuel1 = pollLoop url b pollResp timeout k fuel2 := by
  intro fuel1
  induction fuel1 with
  | zero =>
    intro fuel2 k h1 _h2
    cases fuel2 with
    | zero => rfl
    | succ m2 =>
      simp only [pollLoop]
      rw [if_neg (by omega)]
  | succ m ih =>
    intro fuel2 k h1 h2
    cases fuel2 with
    | zero =>
      simp only [pollLoop]
      rw [if_neg (by omega)]
    | succ m2 =>
      by_cases h5 : 5 * k < timeout
      · cases hf : fetch_latest_block_number (pollResp k) with
        | raises => simp only [pollLoop, if_pos h5, hf]
        | ok v =>
          cases v with
          | none =>
            simp only [pollLoop, if_pos h5, hf]
            rw [ih m2 (k + 1) (by omega) (by omega)]
          | some n =>
            by_cases hbn : b < n
            · simp only [pollLoop, if_pos h5, hf, if_pos hbn]
            · simp only [pollLoop, if_pos h5, hf, if_neg hbn]
              rw [ih m2 (k + 1) (by omega) (by omega)]
      · simp only [pollLoop, if_neg h5]

/-- If no poll raises, the loop can only return ok true or ok false. -/
theorem pollLoop_total (url : String) (b : Nat)
    (pollResp : Nat → HttpResp BNBody) (timeout : Nat)
    (hp : ∀ j, fetch_latest_block_number (pollResp j) ≠ PyResult.raises) :
    ∀ fuel k, (pollLoop url b pollResp timeout k fuel).1 = PyResult.ok true
      ∨ (pollLoop url b pollResp timeout k fuel).1 = PyResult.ok false := by
  intro fuel
  induction fuel with
  | zero => intro k; exact Or.inr rfl
  | succ m ih =>
    intro k
    by_cases h5 : 5 * k < timeout
    · cases hf : fetch_latest_block_number (pollResp k) with
      | raises => exact absurd hf (hp k)
      | ok v =>
        cases v with
        | none =>
          have hstep : pollLoop url b pollResp timeout k (m + 1)
              = ((pollLoop url b pollResp timeout (k + 1) m).1,
                 RpcCall.blockNumber url :: (pollLoop url b pollResp timeout (k + 1) m).2) := by
            simp only [pollLoop, if_pos h5, hf]
          rw [hstep]
          exact ih (k + 1)
        | some n =>
          by_cases hbn : b < n
          · left
            simp only [pollLoop, if_pos h5, hf, if_pos hbn]
          · have hstep : pollLoop url b pollResp timeout k (m + 1)
                = ((pollLoop url b pollResp timeout (k + 1) m).1,
                   RpcCall.blockNumber url :: (pollLoop url b pollResp timeout (k + 1) m).2) := by
              simp only [pollLoop, if_pos h5, hf, if_neg hbn]
            rw [hstep]
            exact ih (k + 1)
    · right
      simp only [pollLoop, if_neg h5]

/-- If no poll raises and the fuel covers the window, the loop returns ok
true exactly when some poll inside the remaining window reports a head
strictly above the baseline. -/
theorem pollLoop_true_iff (url : String) (b : Nat)
    (pollResp : Nat → HttpResp BNBody) (timeout : Nat)
    (hp : ∀ j, fetch_latest_block_number (pollResp j) ≠ PyResult.raises) :
    ∀ fuel k, timeout ≤ 5 * k + 5 * fuel →
      ((pollLoop url b pollResp timeout k fuel).1 = PyResult.ok true
        ↔ ∃ j, k ≤ j ∧ 5 * j < timeout ∧ successAt b pollResp j) := by
  intro fuel
  induction fuel with
  | zero =>
    intro k hk
    have h0 : pollLoop url b pollResp timeout k 0 = (PyResult.ok false, []) := rfl
    rw [h0]
    constructor
    · intro h
      simp at h
    · rintro ⟨j, hkj, hjt, -⟩
      exact absurd hjt (by omega)
  | succ m ih =>
    intro k hk
    by_cases h5 : 5 * k < timeout
    · cases hf : fetch_latest_block_number (pollResp k) with
      | raises => exact absurd hf (hp k)
      | ok v =>
        cases v with
        | none =>
          have hstep : pollLoop url b pollResp timeout k (m + 1)
              = ((pollLoop url b pollResp timeout (k + 1) m).1,
                 RpcCall.blockNumber url :: (pollLoop url b pollResp timeout (k + 1) m).2) := by
            simp only [pollLoop, if_pos h5, hf]
          rw [hstep]
          rw [show ((pollLoop url b pollResp timeout (k + 1) m).1,
              RpcCall.blockNumber url :: (pollLoop url b pollResp timeout (k + 1) m).2).1
              = (pollLoop url b pollResp timeout (k + 1) m).1 from rfl]
          rw [ih (k + 1) (by omega)]
          constructor
          · rintro ⟨j, hj1, hj2, hj3⟩
            exact ⟨j, by omega, hj2, hj3⟩
          · rintro ⟨j, hj1, hj2, hj3⟩
            refine ⟨j, ?_, hj2, hj3⟩
            rcases Nat.eq_or_lt_of_le hj1 with rfl | hlt
            · obtain ⟨n2, hn2, -⟩ := hj3
              rw [hf] at hn2
              cases hn2
            · omega
        | some n =>
          by_cases hbn : b < n
          · have hstep : pollLoop url b pollResp timeout k (m + 1)
                = (PyResult.ok true, [RpcCall.blockNumber url]) := by
              simp only [pollLoop, if_pos h5, hf, if_pos hbn]
            rw [hstep]
            constructor
            · intro _
              exact ⟨k, le_rfl, h5, n, hf, hbn⟩
            · intro _
              rfl
          · have hstep : pollLoop url b pollResp timeout k (m + 1)
                = ((pollLoop url b pollResp timeout (k + 1) m).1,
                   RpcCall.blockNumber url :: (pollLoop url b pollResp timeout (k + 1) m).2) := by
              simp only [pollLoop, if_pos h5, hf, if_neg hbn]
            rw [hstep]
            rw [show ((pollLoop url b pollResp timeout (k + 1) m).1,
                RpcCall.blockNumber url :: (pollLoop url b pollResp timeout (k + 1) m).2).1
                = (pollLoop url b pollResp timeout (k + 1) m).1 from rfl]
            rw [ih (k + 1) (by omega)]
            constructor
            · rintro ⟨j, hj1, hj2, hj3⟩
              exact ⟨j, by omega, hj2, hj3⟩
            · rintro ⟨j, hj1, hj2, hj3⟩
              refine ⟨j, ?_, hj2, hj3⟩
              rcases Nat.eq_or_lt_of_le hj1 with rfl | hlt
              · obtain ⟨n2, hn2, hbn2⟩ := hj3
                rw [hf] at hn2
                injection hn2 with hn2
                injection hn2 with hn2
                omega
              · omega
    · have h0 : pollLoop url b pollResp timeout k (m + 1) = (PyResult.ok false, []) := by
        simp only [pollLoop, if_neg h5]
      rw [h0]
      constructor
      · intro h
        simp at h
      · rintro ⟨j, hkj, hjt, -⟩
        exact absurd hjt (by omega)

/-- Every call the polling loop records is an eth_blockNumber call to the
polled endpoint. -/
theorem pollLoop_trace_mem (url : String) (b : Nat)
    (pollResp : Nat → HttpResp BNBody) (timeout : Nat) :
    ∀ fuel k c, c ∈ (pollLoop url b pollResp timeout k fuel).2 →
      c = RpcCall.blockNumber url := by
  intro fuel
  induction fuel with
  | zero =>
    intro k c hc
    exact absurd hc (by simp [pollLoop])
  | succ m ih =>
    intro k c hc
    by_cases h5 : 5 * k < timeout
    · cases hf : fetch_latest_block_number (pollResp k) with
      | raises =>
        simp only [pollLoop, if_pos h5, hf] at hc
        simpa using hc
      | ok v =>
        cases v with
        | none =>
          simp only [pollLoop, if_pos h5, hf] at hc
          rcases List.mem_cons.1 hc with h | h
          · exact h
          · exact ih (k + 1) c h
        | some n =>
          by_cases hbn : b < n
          · simp only [pollLoop, if_pos h5, hf, if_pos hbn] at hc
            simpa using hc
          · simp only [pollLoop, if_pos h5, hf, if_neg hbn] at hc
            rcases List.mem_cons.1 hc with h | h
            · exact h
            · exact ih (k + 1) c h
    · simp only [pollLoop, if_neg h5] at hc
      simp at hc

/-- When the first successful poll inside the window is poll j0, the loop
records exactly the polls up to and including j0 and stops: the trace from
iteration k has j0 - k + 1 entries. -/
theorem pollLoop_first_success_len (url : String) (b : Nat)
    (pollResp : Nat → HttpResp BNBody) (timeout : Nat)
    (hp : ∀ j, fetch_latest_block_number (pollResp j) ≠ PyResult.raises)
    (j0 : Nat) (hj0 : 5 * j0 < timeout) (hs : successAt b pollResp j0) :
    ∀ fuel k, timeout ≤ 5 * k + 5 * fuel → k ≤ j0 →
      (∀ j, k ≤ j → j < j0 → ¬ successAt b pollResp j) →
      (pollLoop url b pollResp timeout k fuel).2.length = j0 - k + 1 := by
  intro fuel
  induction fuel with
  | zero =>
    intro k hk hkj _hmin
    exact absurd hj0 (by omega)
  | succ m ih =>
    intro k hk hkj hmin
    have h5 : 5 * k < timeout := by omega
    cases hf : fetch_latest_block_number (pollResp k) with
    | raises => exact absurd hf (hp k)
    | ok v =>
      cases v with
      | none =>
        have hkne : k ≠ j0 := by
          intro h
          subst h
          obtain ⟨n2, hn2, -⟩ := hs
          rw [hf] at hn2
          cases hn2
        have hlen := ih (k + 1) (by omega) (by omega)
          (fun j hj1 hj2 => hmin j (by omega) hj2)
        simp only [pollLoop, if_pos h5, hf, List.length_cons, hlen]
        omega
      | some n =>
        by_cases hbn : b < n
        · have hke : k = j0 := by
            by_contra hne
            exact hmin k le_rfl (by omega) ⟨n, hf, hbn⟩
          subst hke
          simp [pollLoop, if_pos h5, hf, if_pos hbn]
        · have hkne : k ≠ j0 := by
            intro h
            subst h
            obtain ⟨n2, hn2, hbn2⟩ := hs
            rw [hf] at hn2
            injection hn2 with hn2
            injection hn2 with hn2
            omega
          have hlen := ih (k + 1) (by omega) (by omega)
            (fun j hj1 hj2 => hmin j (by omega) hj2)
          simp only [pollLoop, if_pos h5, hf, if_neg hbn, List.length_cons, hlen]
          omega

/-- Every call recorded by check_block_progression is an eth_blockNumber
call to the polled endpoint. -/
theorem check_block_progression_trace_mem (url : String)
    (baselineResp : HttpResp BNBody) (pollResp : Nat → HttpResp BNBody)
    (timeout : Nat) :
    ∀ c ∈ (check_block_progression url baselineResp pollResp timeout).2,
      c = RpcCall.blockNumber url := by
  intro c hc
  cases hf : fetch_latest_block_number baselineResp with
  | raises =>
    simp only [check_block_progression, hf] at hc
    simpa using hc
  | ok v =>
    cases v with
    | none =>
      simp only [check_block_progression, hf] at hc
      simpa using hc
    | some b =>
      simp only [check_block_progression, hf] at hc
      rcases List.mem_cons.1 hc with h | h
      · exact h
      · exact pollLoop_trace_mem url b pollResp timeout timeout 0 c h

/-- C5: under the spec assumption that polls do not raise, the progression
check returns true exactly when some poll strictly inside the timeout
window reports a head strictly above the baseline (so a head equal to or
below the baseline never yields true); otherwise it returns false; and
when the first successful poll is poll k the loop stops there: the call
trace holds exactly the baseline call plus polls 0 through k. -/
theorem C5_progression_semantics (url : String) (baselineResp : HttpResp BNBody)
    (pollResp : Nat → HttpResp BNBody) (timeout b : Nat)
    (hb : fetch_latest_block_number baselineResp = PyResult.ok (some b))
    (hp : ∀ j, fetch_latest_block_number (pollResp j) ≠ PyResult.raises) :
    ((check_block_progression url baselineResp pollResp timeout).1 = PyResult.ok true
      ↔ ∃ k, 5 * k < timeout ∧ successAt b pollResp k)
    ∧ ((check_block_progression url baselineResp pollResp timeout).1 = PyResult.ok true
      ∨ (check_block_progression url baselineResp pollResp timeout).1 = PyResult.ok false)
    ∧ (∀ k, 5 * k < timeout → successAt b pollResp k →
        (∀ j, j < k → ¬ successAt b pollResp j) →
        (check_block_progression url baselineResp pollResp timeout).2.length = k + 2) := by
  have hcbp : check_block_progression url baselineResp pollResp timeout
      = ((pollLoop url b pollResp timeout 0 timeout).1,
         RpcCall.blockNumber url :: (pollLoop url b pollResp timeout 0 timeout).2) := by
    simp only [check_block_progression, hb]
  rw [hcbp]
  refine ⟨?_, ?_, ?_⟩
  · constructor
    · intro h
      obtain ⟨j, -, hj2, hj3⟩ :=
        (pollLoop_true_iff url b pollResp timeout hp timeout 0 (by omega)).1 h
      exact ⟨j, hj2, hj3⟩
    · rintro ⟨j, hj2, hj3⟩
      exact (pollLoop_true_iff url b pollResp timeout hp timeout 0 (by omega)).2
        ⟨j, Nat.zero_le j, hj2, hj3⟩
  · rcases pollLoop_total url b pollResp timeout hp timeout 0 with h | h
    · exact Or.inl h
    · exact Or.inr h
  · intro k hk hs hmin
    have hlen := pollLoop_first_success_len url b pollResp timeout hp k hk hs timeout 0
      (by omega) (Nat.zero_le k) (fun j _ hj2 => hmin j hj2)
    show (RpcCall.blockNumber url :: (pollLoop url b pollResp timeout 0 timeout).2).length
      = k + 2
    rw [List.length_cons, hlen]
    omega

/-- C5 witness: baseline 1000, every poll reports 1001, timeout 30
seconds: the hypotheses hold and the characterization applies. -/
theorem C5_progression_semantics_witness :
    fetch_latest_block_number resp1000 = PyResult.ok (some 1000)
    ∧ (((check_block_progression tgt_url resp1000 (fun _ => resp1001) 30).1 = PyResult.ok true
        ↔ ∃ k, 5 * k < 30 ∧ successAt 1000 (fun _ => resp1001) k)
      ∧ ((check_block_progression tgt_url resp1000 (fun _ => resp1001) 30).1 = PyResult.ok true
        ∨ (check_block_progression tgt_url resp1000 (fun _ => resp1001) 30).1 = PyResult.ok false)
      ∧ (∀ k, 5 * k < 30 → successAt 1000 (fun _ => resp1001) k →
          (∀ j, j < k → ¬ successAt 1000 (fun _ => resp1001) j) →
          (check_block_progression tgt_url resp1000 (fun _ => resp1001) 30).2.length = k + 2)) :=
  ⟨by decide,
   C5_progression_semantics tgt_url resp1000 (fun _ => resp1001) 30 1000 (by decide)
     (fun _ => (by decide : fetch_latest_block_number resp1001 ≠ PyResult.raises))⟩

/-- C7: when the baseline head query yields None, check_block_progression
returns false immediately, for every poll oracle and timeout, and its call
trace holds only the baseline call: the polling loop is never entered and
no sleep happens. -/
theorem C7_absent_baseline_immediate (url : String) (baselineResp : HttpResp BNBody)
    (pollResp : Nat → HttpResp BNBody) (timeout : Nat)
    (hb : fetch_latest_block_number baselineResp = PyResult.ok none) :
    check_block_progression url baselineResp pollResp timeout
      = (PyResult.ok false, [RpcCall.blockNumber url]) := by
  simp only [check_block_progression, hb]

/-- C7 witness: an HTTP 500 baseline response decodes to None and the
theorem applies at timeout 30 with an unreachable poll oracle. -/
theorem C7_absent_baseline_immediate_witness :
    fetch_latest_block_number (HttpResp.http 500 none) = PyResult.ok none
    ∧ check_block_progression tgt_url (HttpResp.http 500 none)
        (fun _ => HttpResp.netError) 30
      = (PyResult.ok false, [RpcCall.blockNumber tgt_url]) :=
  ⟨by decide,
   C7_absent_baseline_immediate tgt_url (HttpResp.http 500 none)
     (fun _ => HttpResp.netError) 30 (by decide)⟩

/-- C9: in both aggregators, whenever the reference head lookup returns a
number n, the trace starts with exactly one eth_blockNumber call to the
reference followed by the two eth_getBlockByNumber calls, to the reference
and then to the target, both carrying the same number n; every later call
is an eth_blockNumber poll of the target, so the block number used for the
consistency comparison is fetched once from the reference and reused. -/
theorem C9_head_fetched_once_and_reused (rpc_url reference_url : String)
    (timeout n : Nat) (w : World)
    (h1 : fetch_latest_block_number w.refHeadResp = PyResult.ok (some n))
    (h2 : fetch_block_details w.refDetailsResp (some n) ≠ PyResult.raises) :
    (∃ rest, (perform_checks rpc_url reference_url timeout w).2
        = RpcCall.blockNumber reference_url
          :: RpcCall.getBlockByNumber reference_url n
          :: RpcCall.getBlockByNumber rpc_url n :: rest
      ∧ ∀ c ∈ rest, c = RpcCall.blockNumber rpc_url)
    ∧ (∃ rest, (main rpc_url reference_url timeout w).2
        = RpcCall.blockNumber reference_url
          :: RpcCall.getBlockByNumber reference_url n
          :: RpcCall.getBlockByNumber rpc_url n :: rest
      ∧ ∀ c ∈ rest, c = RpcCall.blockNumber rpc_url) := by
  constructor
  · cases hd1 : fetch_block_details w.refDetailsResp (some n) with
    | raises => exact absurd hd1 h2
    | ok refD =>
      cases hd2 : fetch_block_details w.targetDetailsResp (some n) with
      | raises =>
        refine ⟨[], ?_, by simp⟩
        simp [perform_checks, h1, hd1, hd2, detailsCallTrace]
      | ok tgtD =>
        cases hbc : block_hash_check refD tgtD with
        | raises =>
          refine ⟨[], ?_, by simp⟩
          simp [perform_checks, h1, hd1, hd2, hbc, detailsCallTrace]
        | ok hOk =>
          refine ⟨(check_block_progression rpc_url w.targetBaselineResp
            w.targetPollResp timeout).2, ?_, ?_⟩
          · cases hpr : (check_block_progression rpc_url w.targetBaselineResp
              w.targetPollResp timeout).1 with
            | raises =>
              simp [perform_checks, h1, hd1, hd2, hbc, hpr, detailsCallTrace]
            | ok progOk =>
              simp [perform_checks, h1, hd1, hd2, hbc, hpr, detailsCallTrace]
          · exact check_block_progression_trace_mem rpc_url w.targetBaselineResp
              w.targetPollResp timeout
  · cases hd1 : fetch_block_details w.refDetailsResp (some n) with
    | raises => exact absurd hd1 h2
    | ok refD =>
      cases hd2 : fetch_block_details w.targetDetailsResp (some n) with
      | raises =>
        refine ⟨[], ?_, by simp⟩
        simp [main, h1, hd1, hd2]
      | ok tgtD =>
        cases hbc : block_hash_check refD tgtD with
        | raises =>
          refine ⟨[], ?_, by simp⟩
          simp [main, h1, hd1, hd2, hbc]
        | ok hOk =>
          refine ⟨(check_block_progression rpc_url w.targetBaselineResp
            w.targetPollResp timeout).2, ?_, ?_⟩
          · cases hpr : (check_block_progression rpc_url w.targetBaselineResp
              w.targetPollResp timeout).1 with
            | raises =>
              simp [main, h1, hd1, hd2, hbc, hpr]
            | ok progOk =>
              simp [main, h1, hd1, hd2, hbc, hpr]
          · exact check_block_progression_trace_mem rpc_url w.targetBaselineResp
              w.targetPollResp timeout

/-- C9 witness: in the healthy world the reference head is 1000, the
reference details fetch does not raise, and the trace characterization
applies to both aggregators. -/
theorem C9_head_fetched_once_and_reused_witness :
    fetch_latest_block_number w_healthy.refHeadResp = PyResult.ok (some 1000)
    ∧ fetch_block_details w_healthy.refDetailsResp (some 1000) ≠ PyResult.raises
    ∧ ((∃ rest, (perform_checks tgt_url ref_url 30 w_healthy).2
          = RpcCall.blockNumber ref_url
            :: RpcCall.getBlockByNumber ref_url 1000
            :: RpcCall.getBlockByNumber tgt_url 1000 :: rest
        ∧ ∀ c ∈ rest, c = RpcCall.blockNumber tgt_url)
      ∧ (∃ rest, (main tgt_url ref_url 30 w_healthy).2
          = RpcCall.blockNumber ref_url
            :: RpcCall.getBlockByNumber ref_url 1000
            :: RpcCall.getBlockByNumber tgt_url 1000 :: rest
        ∧ ∀ c ∈ rest, c = RpcCall.blockNumber tgt_url)) :=
  ⟨by decide, by decide,
   C9_head_fetched_once_and_reused tgt_url ref_url 30 1000 w_healthy (by decide) (by decide)⟩

/-- C10: a request without the rpc_url parameter and a request with the
empty string both get the 400 bad-request response and trigger no RPC
call at all; a non-empty rpc_url runs perform_checks with the default
reference and timeout and returns whatever results it produces (and, as
the code stands, propagates an exception if perform_checks raises). -/
theorem C10_api_check_routes (w : World) (s : String) (hs : s ≠ "") :
    api_check none w = (PyResult.ok ApiCheckResponse.badRequest, [])
    ∧ api_check (some "") w = (PyResult.ok ApiCheckResponse.badRequest, [])
    ∧ (∀ results trace,
        perform_checks s default_reference_url default_timeout w
          = (PyResult.ok results, trace) →
        api_check (some s) w = (PyResult.ok (ApiCheckResponse.ok results), trace))
    ∧ ((perform_checks s default_reference_url default_timeout w).1 = PyResult.raises →
        api_check (some s) w
          = (PyResult.raises, (perform_checks s default_reference_url default_timeout w).2)) := by
  refine ⟨rfl, rfl, ?_, ?_⟩
  · intro results trace hpc
    simp [api_check, if_neg hs, hpc]
  · intro hpc
    simp [api_check, if_neg hs, hpc]

/-- C10 witness: the route behavior instantiated in the healthy world with
a concrete non-empty url. -/
theorem C10_api_check_routes_witness :
    tgt_url ≠ ""
    ∧ (api_check none w_healthy = (PyResult.ok ApiCheckResponse.badRequest, [])
      ∧ api_check (some "") w_healthy = (PyResult.ok ApiCheckResponse.badRequest, [])
      ∧ (∀ results trace,
          perform_checks tgt_url default_reference_url default_timeout w_healthy
            = (PyResult.ok results, trace) →
          api_check (some tgt_url) w_healthy
            = (PyResult.ok (ApiCheckResponse.ok results), trace))
      ∧ ((perform_checks tgt_url default_reference_url default_timeout w_healthy).1
            = PyResult.raises →
          api_check (some tgt_url) w_healthy
            = (PyResult.raises,
               (perform_checks tgt_url default_reference_url default_timeout w_healthy).2))) :=
  ⟨by decide, C10_api_check_routes w_healthy tgt_url (by decide)⟩

end RolluxSanity
